import Mathlib

set_option maxHeartbeats 1000000
set_option maxRecDepth 8000

deriving instance DecidableEq for Except

/- Shallow embedding of src/main.py, a FastAPI RAG service over Elasticsearch.
   Pure values model the request and response payloads.  The external
   Elasticsearch store is modelled as an explicit state threaded through each
   endpoint, and every externally visible operation (store round-trips,
   embedding calls, generation calls) is recorded in an effect trace.  The
   embedding, generation and engine-scoring collaborators are black boxes per
   the spec and enter as function parameters. -/

/-- Embedding vectors.  The floats of the source are modelled as integers; no
claim computes on vector entries, and the engine's cosine primitive is an
abstract parameter. -/
abbrev EmbVec := List Int

/-- A metadata value.  The source only distinguishes list values from scalar
values (isinstance(val, list) at src/main.py:236). -/
inductive MVal where
  | scalar (s : String)
  | list (vs : List String)
deriving DecidableEq, Repr

/-- A Python dict of metadata: an insertion-ordered association list.  A value
of none models Python None (JSON null). -/
abbrev MetaMap := List (String × Option MVal)

/-- Source clean_metadata (src/main.py:39-42): a falsy input (None or the empty
dict) gives an empty dict, otherwise entries whose value is None are dropped. -/
def clean_metadata : Option MetaMap → MetaMap
  | none => []
  | some m => if m.isEmpty then [] else m.filter (fun kv => kv.2.isSome)

/-- The vector field schema variants of create_index_if_not_exists
(src/main.py:67-83). -/
inductive VectorFieldSchema where
  | denseVector (dims : Nat)
  | knnVector (dimension : Nat) (methodName spaceType engine : String)
deriving DecidableEq, Repr

/-- An index mapping: the metadata object field (enabled, dynamic) plus the
optional vector field, keyed by its field name. -/
structure IndexMapping where
  metadataEnabled : Bool
  metadataDynamic : Bool
  vectorField : Option (String × VectorFieldSchema)
deriving DecidableEq, Repr

/-- A LangChain Document as built at src/main.py:146 and 178: page content plus
already-cleaned metadata. -/
structure LCDoc where
  page_content : String
  metadata : MetaMap
deriving DecidableEq, Repr

/-- A document as stored in Elasticsearch: text content, metadata, and named
dense-vector fields (the LangChain store writes the embedding under the
field "vector"). -/
structure StoredDoc where
  content : String
  metadata : MetaMap
  vectors : List (String × EmbVec)
deriving DecidableEq, Repr

/-- The state of the external Elasticsearch engine: created indices with their
mappings, stored documents keyed by (index, id), the engine version string,
and a counter for engine-assigned ids. -/
structure ESState where
  indices : List (String × IndexMapping)
  docs : List ((String × String) × StoredDoc)
  version : String
  autoCtr : Nat
deriving DecidableEq, Repr

def indexExistsB (st : ESState) (n : String) : Bool :=
  st.indices.any (fun p => p.1 == n)

def lookupDoc (st : ESState) (idx id : String) : Option StoredDoc :=
  (st.docs.find? (fun pr => pr.1.1 == idx && pr.1.2 == id)).map Prod.snd

def docExistsB (st : ESState) (idx id : String) : Bool :=
  (lookupDoc st idx id).isSome

/-- Upsert a document under an explicit id (Elasticsearch index semantics:
an existing document under the same id is replaced). -/
def putDoc (st : ESState) (idx id : String) (d : StoredDoc) : ESState :=
  { st with docs :=
      ((idx, id), d) :: st.docs.filter (fun pr => !(pr.1.1 == idx && pr.1.2 == id)) }

def addIndex (st : ESState) (n : String) (m : IndexMapping) : ESState :=
  { st with indices := (n, m) :: st.indices }

/-- A clause of the bool filter built at src/main.py:230-239: a term test for a
scalar value or a terms (membership) test for a list value, on a full field
path such as "metadata.lang". -/
inductive ESClause where
  | term (field : String) (value : String)
  | terms (field : String) (values : List String)
deriving DecidableEq, Repr

/-- The candidate filter body of src/main.py:242-246. -/
structure FilterBody where
  size : Nat
  sourceEnabled : Bool
  filterClauses : List ESClause
deriving DecidableEq, Repr

/-- The knn body of src/main.py:257-267; the vector field queried is "vector". -/
structure KnnBody where
  field : String
  queryVector : EmbVec
  k : Nat
  numCandidates : Nat
  idsFilter : List String
deriving DecidableEq, Repr

/-- The script_score fallback body of src/main.py:275-286.  The script source
cosineSimilarity(params.q, ...) + 1.0 is embedded structurally: scriptField is
the document field the script reads its vector from. -/
structure ScriptBody where
  size : Nat
  idsFilter : List String
  scriptField : String
  queryVector : EmbVec
deriving DecidableEq, Repr

/-- A search hit as reshaped at src/main.py:271 and 289. -/
structure RankedHit where
  id : String
  score : Rat
  source : Option StoredDoc
deriving DecidableEq, Repr

/-- Every externally visible operation of the service. -/
inductive Effect where
  | indexExistsQ (index : String)
  | versionProbe
  | indexCreate (index : String) (mapping : IndexMapping)
  | docExistsQ (index id : String)
  | embedDocs (texts : List String)
  | storeWrite (index : String) (docs : List LCDoc) (ids : Option (List (Option String)))
  | bindStore (index : String)
  | bindModel (model : String)
  | embedQuery (text : String)
  | esSearchFilter (index : String) (body : FilterBody)
  | esSearchKnn (index : String) (body : KnnBody)
  | esSearchScript (index : String) (body : ScriptBody)
  | qaInvoke (query : String)
deriving DecidableEq, Repr

/-- Environment defaults of src/main.py:16,22,100. -/
def ES_INDEX : String := "rag_documents"

def EMBED_DIM : Nat := 768

def BULK_BATCH_SIZE : Nat := 500

def mappingV8 (dim : Nat) : IndexMapping :=
  ⟨true, false, some ("vector", VectorFieldSchema.denseVector dim)⟩

def mappingV7 (dim : Nat) : IndexMapping :=
  ⟨true, false, some ("vector", VectorFieldSchema.knnVector dim "hnsw" "cosinesimil" "nmslib")⟩

def takeUntilDot : List Char → List Char
  | [] => []
  | c :: cs => if c = '.' then [] else c :: takeUntilDot cs

def parseDigitsAux : List Char → Nat → Option Nat
  | [], acc => some acc
  | c :: cs, acc => if c.isDigit then parseDigitsAux cs (acc * 10 + (c.toNat - 48)) else none

def parseDigits : List Char → Option Nat
  | [] => none
  | cs => parseDigitsAux cs 0

/-- int(version.split(".")[0]) — none models a Python ValueError on a
non-numeric first component. -/
def majorOf (v : String) : Option Nat :=
  parseDigits (takeUntilDot v.data)

/-- Whether pre is a leading piece of s (character-wise). -/
def charsBegin : List Char → List Char → Bool
  | [], _ => true
  | _ :: _, [] => false
  | a :: as, b :: bs => (a = b) && charsBegin as bs

def strBegins (s pre : String) : Bool :=
  charsBegin pre.data s.data

/-- Source create_index_if_not_exists (src/main.py:45-89).  An existing index
returns at once.  Otherwise the engine version is probed; major >= 8 creates a
dense_vector mapping, major == 7 a knn_vector (hnsw, cosinesimil) mapping, and
any other major raises inside the try-block, which the except-block wraps into
the provisioning failure message "Failed to create index: ...". -/
def create_index_if_not_exists (st : ESState) (indexName : String) (dim : Nat) :
    List Effect × Except String ESState :=
  if indexExistsB st indexName then
    ([Effect.indexExistsQ indexName], Except.ok st)
  else
    match majorOf st.version with
    | none =>
        ([Effect.indexExistsQ indexName, Effect.versionProbe],
         Except.error ("Failed to create index: invalid major version: " ++ st.version))
    | some mj =>
        if 8 ≤ mj then
          ([Effect.indexExistsQ indexName, Effect.versionProbe,
            Effect.indexCreate indexName (mappingV8 dim)],
           Except.ok (addIndex st indexName (mappingV8 dim)))
        else if mj = 7 then
          ([Effect.indexExistsQ indexName, Effect.versionProbe,
            Effect.indexCreate indexName (mappingV7 dim)],
           Except.ok (addIndex st indexName (mappingV7 dim)))
        else
          ([Effect.indexExistsQ indexName, Effect.versionProbe],
           Except.error ("Failed to create index: Unsupported Elasticsearch version: "
             ++ st.version))

/-- Python truthiness of an optional id: "doc_id if doc_id else None". -/
def normId : Option String → Option String
  | none => none
  | some s => if s.isEmpty then none else some s

def toLCDoc (pc : String) (meta : Option MetaMap) : LCDoc :=
  ⟨pc, clean_metadata meta⟩

/-- What the LangChain store writes for one document: the content, its cleaned
metadata and the embedding of the content under the field "vector". -/
def toStored (emb : String → EmbVec) (d : LCDoc) : StoredDoc :=
  ⟨d.page_content, d.metadata, [("vector", emb d.page_content)]⟩

/-- The (document, id) pairs of one store write: explicit ids are zipped
positionally; with ids absent the engine assigns each document an id. -/
def writePairs (ds : List LCDoc) (ids : Option (List (Option String))) :
    List (LCDoc × Option String) :=
  match ids with
  | some l => ds.zip l
  | none => ds.map (fun d => (d, none))

def storePairs (emb : String → EmbVec) (index : String) :
    List (LCDoc × Option String) → ESState → ESState
  | [], st => st
  | (d, some id) :: rest, st =>
      storePairs emb index rest (putDoc st index id (toStored emb d))
  | (d, none) :: rest, st =>
      storePairs emb index rest
        (putDoc { st with autoCtr := st.autoCtr + 1 } index
          ("auto_" ++ toString st.autoCtr) (toStored emb d))

/-- vector_store.add_documents(docs, ids): embed every document and write each
one under its paired id (or an engine-assigned id). -/
def addDocumentsToStore (emb : String → EmbVec) (st : ESState) (index : String)
    (ds : List LCDoc) (ids : Option (List (Option String))) : ESState :=
  storePairs emb index (writePairs ds ids) st

/-- Request body of POST /add_document (src/main.py:107-111). -/
structure DocumentInputIndex where
  doc_id : Option String
  page_content : String
  metadata : Option MetaMap
  index : String
deriving DecidableEq, Repr

/-- A document record of POST /add_documents_bulk (src/main.py:113-116). -/
structure DocumentInput where
  doc_id : Option String
  page_content : String
  metadata : Option MetaMap
deriving DecidableEq, Repr

structure BulkDocumentInput where
  documents : List DocumentInput
  index : String
deriving DecidableEq, Repr

/-- Request body of POST /search (src/main.py:123-128). -/
structure QueryInput where
  query : String
  k : Option Nat
  index : String
  model : String
  filter_metadata : Option MetaMap
deriving DecidableEq, Repr

inductive AddResult where
  | okRes
  | skippedRes
deriving DecidableEq, Repr

inductive BulkResult where
  | no_docs
  | okAdded (added : Nat)
deriving DecidableEq, Repr

/-- Source add_document (src/main.py:131-150): bind the store, ensure the
index, skip when a truthy doc_id already exists, otherwise clean the metadata,
embed and write the single document under its id (ids=None when doc_id is
falsy). -/
def add_document (emb : String → EmbVec) (st : ESState) (doc : DocumentInputIndex) :
    List Effect × Except String (AddResult × ESState) :=
  let bindTr := [Effect.bindStore doc.index]
  let c := create_index_if_not_exists st doc.index EMBED_DIM
  match c.2 with
  | Except.error e => (bindTr ++ c.1, Except.error e)
  | Except.ok st1 =>
      match normId doc.doc_id with
      | some id =>
          if docExistsB st1 doc.index id then
            (bindTr ++ c.1 ++ [Effect.docExistsQ doc.index id],
             Except.ok (AddResult.skippedRes, st1))
          else
            (bindTr ++ c.1 ++ [Effect.docExistsQ doc.index id,
               Effect.embedDocs [doc.page_content],
               Effect.storeWrite doc.index [toLCDoc doc.page_content doc.metadata]
                 (some [some id])],
             Except.ok (AddResult.okRes,
               addDocumentsToStore emb st1 doc.index
                 [toLCDoc doc.page_content doc.metadata] (some [some id])))
      | none =>
          (bindTr ++ c.1 ++ [Effect.embedDocs [doc.page_content],
             Effect.storeWrite doc.index [toLCDoc doc.page_content doc.metadata] none],
           Except.ok (AddResult.okRes,
             addDocumentsToStore emb st1 doc.index
               [toLCDoc doc.page_content doc.metadata] none))

/-- One batch flush (src/main.py:182 and 189): ids are passed only when some
entry is non-None ("if any(ids_batch) else None"; the comprehension
[i for i in ids_batch] is an identity copy, its variable shadowing the loop
counter). -/
def flushWrite (emb : String → EmbVec) (index : String) (batch : List LCDoc)
    (idsB : List (Option String)) (st : ESState) : List Effect × ESState :=
  let idsOpt := if idsB.any Option.isSome then some idsB else none
  ([Effect.embedDocs (batch.map LCDoc.page_content),
    Effect.storeWrite index batch idsOpt],
   addDocumentsToStore emb st index batch idsOpt)

/-- The batching loop of add_documents_bulk (src/main.py:174-190): per document,
a truthy id is checked for existence against the store (skipped when present);
kept documents and their ids are appended to the two parallel batch lists,
which are flushed whenever the batch reaches the batch size, and once more at
the end if non-empty. -/
def bulkLoop (emb : String → EmbVec) (bs : Nat) (index : String) :
    List DocumentInput → ESState → List LCDoc → List (Option String) → Nat →
    List Effect × ESState × Nat
  | [], st, batch, idsB, added =>
      if batch.isEmpty then ([], st, added)
      else
        ((flushWrite emb index batch idsB st).1,
         (flushWrite emb index batch idsB st).2, added + batch.length)
  | d :: rest, st, batch, idsB, added =>
      match normId d.doc_id with
      | some id =>
          if docExistsB st index id then
            (Effect.docExistsQ index id ::
               (bulkLoop emb bs index rest st batch idsB added).1,
             (bulkLoop emb bs index rest st batch idsB added).2)
          else
            if bs ≤ (batch ++ [toLCDoc d.page_content d.metadata]).length then
              (Effect.docExistsQ index id ::
                 (flushWrite emb index (batch ++ [toLCDoc d.page_content d.metadata])
                   (idsB ++ [some id]) st).1 ++
                 (bulkLoop emb bs index rest
                   (flushWrite emb index (batch ++ [toLCDoc d.page_content d.metadata])
                     (idsB ++ [some id]) st).2 [] []
                   (added + (batch ++ [toLCDoc d.page_content d.metadata]).length)).1,
               (bulkLoop emb bs index rest
                 (flushWrite emb index (batch ++ [toLCDoc d.page_content d.metadata])
                   (idsB ++ [some id]) st).2 [] []
                 (added + (batch ++ [toLCDoc d.page_content d.metadata]).length)).2)
            else
              (Effect.docExistsQ index id ::
                 (bulkLoop emb bs index rest st
                   (batch ++ [toLCDoc d.page_content d.metadata])
                   (idsB ++ [some id]) added).1,
               (bulkLoop emb bs index rest st
                 (batch ++ [toLCDoc d.page_content d.metadata])
                 (idsB ++ [some id]) added).2)
      | none =>
          if bs ≤ (batch ++ [toLCDoc d.page_content d.metadata]).length then
            ((flushWrite emb index (batch ++ [toLCDoc d.page_content d.metadata])
                (idsB ++ [none]) st).1 ++
               (bulkLoop emb bs index rest
                 (flushWrite emb index (batch ++ [toLCDoc d.page_content d.metadata])
                   (idsB ++ [none]) st).2 [] []
                 (added + (batch ++ [toLCDoc d.page_content d.metadata]).length)).1,
             (bulkLoop emb bs index rest
               (flushWrite emb index (batch ++ [toLCDoc d.page_content d.metadata])
                 (idsB ++ [none]) st).2 [] []
               (added + (batch ++ [toLCDoc d.page_content d.metadata]).length)).2)
          else
            bulkLoop emb bs index rest st
              (batch ++ [toLCDoc d.page_content d.metadata]) (idsB ++ [none]) added

/-- Source add_documents_bulk (src/main.py:152-192).  Note the store binding
and create_index_if_not_exists run before the empty-input check. -/
def add_documents_bulk (emb : String → EmbVec) (bs : Nat) (st : ESState)
    (p : BulkDocumentInput) : List Effect × Except String (BulkResult × ESState) :=
  let bindTr := [Effect.bindStore p.index]
  let c := create_index_if_not_exists st p.index EMBED_DIM
  match c.2 with
  | Except.error e => (bindTr ++ c.1, Except.error e)
  | Except.ok st1 =>
      if p.documents.isEmpty then
        (bindTr ++ c.1, Except.ok (BulkResult.no_docs, st1))
      else
        (bindTr ++ c.1 ++ (bulkLoop emb bs p.index p.documents st1 [] [] 0).1,
         Except.ok (BulkResult.okAdded (bulkLoop emb bs p.index p.documents st1 [] [] 0).2.2,
           (bulkLoop emb bs p.index p.documents st1 [] [] 0).2.1))

/-- Engine semantics of a term test against one stored metadata value. -/
def mvalHasTerm : MVal → String → Bool
  | MVal.scalar s, v => s == v
  | MVal.list ss, v => ss.contains v

/-- Engine semantics of one filter clause against a stored document. -/
def matchesClause (d : StoredDoc) : ESClause → Bool
  | ESClause.term f v =>
      d.metadata.any (fun kv =>
        ("metadata." ++ kv.1 == f) &&
        (match kv.2 with | none => false | some mv => mvalHasTerm mv v))
  | ESClause.terms f vs =>
      d.metadata.any (fun kv =>
        ("metadata." ++ kv.1 == f) &&
        (match kv.2 with | none => false | some mv => vs.any (fun v => mvalHasTerm mv v)))

/-- Engine semantics of a bool filter: the conjunction of its clauses (an
empty clause list matches every document). -/
def matchesClauses (cs : List ESClause) (d : StoredDoc) : Bool :=
  cs.all (matchesClause d)

/-- The must_clauses construction of src/main.py:230-239: None values are
dropped, list values become terms clauses, scalars become term clauses, on the
field path "metadata." ++ key. -/
def buildClauses (m : MetaMap) : List ESClause :=
  m.filterMap (fun kv =>
    match kv.2 with
    | none => none
    | some (MVal.scalar s) => some (ESClause.term ("metadata." ++ kv.1) s)
    | some (MVal.list vs) => some (ESClause.terms ("metadata." ++ kv.1) vs))

/-- Engine semantics of the candidate query (src/main.py:242-248): the ids of
the documents of the index matching the filter, capped at size 1000. -/
def filterCandidates (st : ESState) (index : String) (cs : List ESClause) :
    List String :=
  (((st.docs.filter (fun pr => pr.1.1 == index && matchesClauses cs pr.2)).map
      (fun pr => pr.1.2)).take 1000)

def insertByScore (h : RankedHit) : List RankedHit → List RankedHit
  | [] => [h]
  | x :: xs => if x.score < h.score then h :: x :: xs else x :: insertByScore h xs

def sortByScoreDesc (l : List RankedHit) : List RankedHit :=
  l.foldr insertByScore []

def fieldVec (d : StoredDoc) (field : String) : Option EmbVec :=
  (d.vectors.find? (fun p => p.1 == field)).map Prod.snd

/-- Engine semantics of the script_score fallback query: the candidates are
the documents of the index whose id is in the ids filter; the script reads
each candidate's vector from scriptField and scores it cosFn(q, v) + 1; a
candidate without that field makes the whole script query fail (the engine's
cosineSimilarity raises on a missing or non-vector field). -/
def scriptScoreSearch (st : ESState) (index : String) (idVals : List String)
    (field : String) (qv : EmbVec) (cosFn : EmbVec → EmbVec → Rat) (size : Nat) :
    Except String (List RankedHit) :=
  let cands := idVals.filterMap (fun i => (lookupDoc st index i).map (fun d => (i, d)))
  if cands.all (fun c => (fieldVec c.2 field).isSome) then
    Except.ok ((sortByScoreDesc (cands.map (fun c =>
      ⟨c.1,
       (match fieldVec c.2 field with
        | some v => cosFn qv v + 1
        | none => 0),
       some c.2⟩))).take size)
  else
    Except.error ("script_score failed: missing field " ++ field)

/-- The response payloads of POST /search (src/main.py:222,250,272,290,298). -/
inductive SearchPayload where
  | msg (m : String)
  | noteEmpty (query : String) (note : String)
  | results (query : String) (hits : List RankedHit)
  | answer (query : String) (ans : String)
deriving DecidableEq, Repr

/-- Outcomes of the external collaborators during one search request: the
setup try-block of src/main.py:201-219, the candidate filter query, the query
embedding, the knn attempt, the engine cosine primitive, and qa.invoke. -/
structure World where
  setupOutcome : Except String Unit
  embed : String → EmbVec
  filterFail : Option String
  knnOutcome : Except String (List RankedHit)
  cosFn : EmbVec → EmbVec → Rat
  qaOutcome : Except String String

/-- Python truthiness of the optional filter dict: None and the empty dict are
falsy (src/main.py:228). -/
def truthyFilter : Option MetaMap → Option MetaMap
  | none => none
  | some m => if m.isEmpty then none else some m

/-- The filtered-retrieval branch of search_rag (src/main.py:228-290): build
the clauses, fetch candidate ids against ES_INDEX (note, not against q.index),
short-circuit on zero candidates, embed the query, try knn, and on knn failure
fall back to the script_score query whose script reads the field "embedding".
Only the knn attempt is inside a try; a failing candidate query or a failing
fallback query propagates. -/
def searchFiltered (w : World) (st : ESState) (q : QueryInput) (k : Nat)
    (bindTr : List Effect) (m : MetaMap) : List Effect × Except String SearchPayload :=
  let clauses := buildClauses m
  let fbody : FilterBody := ⟨1000, false, clauses⟩
  let tr1 := bindTr ++ [Effect.esSearchFilter ES_INDEX fbody]
  match w.filterFail with
  | some e => (tr1, Except.error e)
  | none =>
      let ids := filterCandidates st ES_INDEX clauses
      if ids.isEmpty then
        (tr1, Except.ok (SearchPayload.noteEmpty q.query "no docs after filter"))
      else
        let qv := w.embed q.query
        let tr2 := tr1 ++ [Effect.embedQuery q.query]
        let kbody : KnnBody := ⟨"vector", qv, k, 100, ids⟩
        let tr3 := tr2 ++ [Effect.esSearchKnn ES_INDEX kbody]
        match w.knnOutcome with
        | Except.ok hits => (tr3, Except.ok (SearchPayload.results q.query hits))
        | Except.error _ =>
            let sbody : ScriptBody := ⟨k, ids, "embedding", qv⟩
            let tr4 := tr3 ++ [Effect.esSearchScript ES_INDEX sbody]
            match scriptScoreSearch st ES_INDEX ids "embedding" qv w.cosFn k with
            | Except.ok hits => (tr4, Except.ok (SearchPayload.results q.query hits))
            | Except.error e => (tr4, Except.error e)

/-- Source search_rag (src/main.py:194-298).  A setup failure is caught and
returned as a msg payload.  k is "q.k or 5" (Python: None or 0 give 5).  A
truthy filter dict takes the filtered branch; otherwise qa.invoke produces the
generated answer (its failure propagates). -/
def search_rag (w : World) (st : ESState) (q : QueryInput) :
    List Effect × Except String SearchPayload :=
  match w.setupOutcome with
  | Except.error e => ([], Except.ok (SearchPayload.msg e))
  | Except.ok _ =>
      let bindTr := [Effect.bindStore q.index, Effect.bindModel q.model]
      let k := match q.k with
               | none => 5
               | some n => if n = 0 then 5 else n
      match truthyFilter q.filter_metadata with
      | some m => searchFiltered w st q k bindTr m
      | none =>
          match w.qaOutcome with
          | Except.ok ans =>
              (bindTr ++ [Effect.qaInvoke q.query],
               Except.ok (SearchPayload.answer q.query ans))
          | Except.error e =>
              (bindTr ++ [Effect.qaInvoke q.query], Except.error e)

/-- Effects that invoke the embedding or generation collaborator, or write
documents to the store. -/
def isCollabOrWrite : Effect → Bool
  | Effect.embedDocs _ => true
  | Effect.embedQuery _ => true
  | Effect.qaInvoke _ => true
  | Effect.storeWrite _ _ _ => true
  | _ => false

def isPerDocCheck : Effect → Bool
  | Effect.docExistsQ _ _ => true
  | _ => false

def isQaCall : Effect → Bool
  | Effect.qaInvoke _ => true
  | _ => false

/-- The index targeted by each store search of a trace, in order. -/
def esSearchTargets : List Effect → List String
  | [] => []
  | Effect.esSearchFilter i _ :: r => i :: esSearchTargets r
  | Effect.esSearchKnn i _ :: r => i :: esSearchTargets r
  | Effect.esSearchScript i _ :: r => i :: esSearchTargets r
  | _ :: r => esSearchTargets r

/-- The (document, id) pairs of every store write of a trace, concatenated in
order. -/
def effectWritePairs : Effect → List (LCDoc × Option String)
  | Effect.storeWrite _ ds ids => writePairs ds ids
  | _ => []

def traceWritePairs (tr : List Effect) : List (LCDoc × Option String) :=
  (tr.map effectWritePairs).flatten

/-- The pair a submitted bulk document should travel as: its cleaned content
record together with its own (truthiness-normalised) id. -/
def inputPair (d : DocumentInput) : LCDoc × Option String :=
  (toLCDoc d.page_content d.metadata, normId d.doc_id)

/-- Per-write well-formedness: an explicit id list has the batch's length. -/
def writeLenOk : Effect → Bool
  | Effect.storeWrite _ ds (some l) => ds.length == l.length
  | _ => true

/-- The added count of a bulk response, when the call succeeded with one. -/
def addedOf : Except String (BulkResult × ESState) → Option Nat
  | Except.ok (BulkResult.okAdded r, _) => some r
  | _ => none

/- ------------------------------------------------------------------ -/
/- Helper lemmas                                                      -/
/- ------------------------------------------------------------------ -/

theorem charsBegin_append (p a b : List Char) (h : charsBegin p a = true) :
    charsBegin p (a ++ b) = true := by
  induction p generalizing a with
  | nil => rfl
  | cons c cs ih =>
      cases a with
      | nil => simp [charsBegin] at h
      | cons x xs =>
          simp [charsBegin] at h ⊢
          exact ⟨h.1, ih xs h.2⟩

theorem traceWritePairs_cons (e : Effect) (tr : List Effect) :
    traceWritePairs (e :: tr) = effectWritePairs e ++ traceWritePairs tr := by
  simp [traceWritePairs]

theorem traceWritePairs_append (a b : List Effect) :
    traceWritePairs (a ++ b) = traceWritePairs a ++ traceWritePairs b := by
  simp [traceWritePairs]

theorem countP_filter_not {α : Type} (p : α → Bool) (l : List α) :
    (l.filter (fun x => !p x)).countP p = 0 := by
  induction l with
  | nil => rfl
  | cons a l ih =>
      by_cases h : p a <;> simp [List.filter_cons, h, List.countP_cons, ih]

theorem lookupDoc_docs_eq (st1 st2 : ESState) (i j : String)
    (h : st1.docs = st2.docs) : lookupDoc st1 i j = lookupDoc st2 i j := by
  unfold lookupDoc
  rw [h]

theorem lookupDoc_putDoc_self (st : ESState) (idx id : String) (d : StoredDoc) :
    lookupDoc (putDoc st idx id d) idx id = some d := by
  simp [lookupDoc, putDoc, List.find?]

/-- Facts about a successful create_index_if_not_exists: the document store is
untouched and the index exists afterwards. -/
theorem create_ok_facts (st : ESState) (n : String) (dim : Nat) (st1 : ESState)
    (h : (create_index_if_not_exists st n dim).2 = Except.ok st1) :
    st1.docs = st.docs ∧ st1.autoCtr = st.autoCtr ∧ indexExistsB st1 n = true := by
  unfold create_index_if_not_exists at h
  by_cases hex : indexExistsB st n
  · simp [hex] at h
    subst h
    exact ⟨rfl, rfl, hex⟩
  · simp [hex] at h
    rcases hmj : majorOf st.version with _ | mj
    · rw [hmj] at h
      simp at h
    · rw [hmj] at h
      by_cases h8 : 8 ≤ mj
      · simp [h8] at h
        subst h
        refine ⟨rfl, rfl, ?_⟩
        simp [indexExistsB, addIndex]
      · by_cases h7 : mj = 7
        · simp [h8, h7] at h
          subst h
          refine ⟨rfl, rfl, ?_⟩
          simp [indexExistsB, addIndex]
        · simp [h8, h7] at h

/-- The trace of create_index_if_not_exists performs no collaborator call, no
document write and no per-document existence check, and always contains the
index existence check. -/
theorem create_trace_clean (st : ESState) (n : String) (dim : Nat) :
    ((create_index_if_not_exists st n dim).1.all
       (fun e => !isCollabOrWrite e && !isPerDocCheck e) = true)
    ∧ Effect.indexExistsQ n ∈ (create_index_if_not_exists st n dim).1
    ∧ traceWritePairs (create_index_if_not_exists st n dim).1 = []
    ∧ ((create_index_if_not_exists st n dim).1.all writeLenOk = true) := by
  unfold create_index_if_not_exists
  by_cases hex : indexExistsB st n
  · simp [hex, isCollabOrWrite, isPerDocCheck, traceWritePairs, effectWritePairs, writeLenOk]
  · rcases hmj : majorOf st.version with _ | mj
    · simp [hex, hmj, isCollabOrWrite, isPerDocCheck, traceWritePairs, effectWritePairs,
        writeLenOk]
    · by_cases h8 : 8 ≤ mj
      · simp [hex, hmj, h8, isCollabOrWrite, isPerDocCheck, traceWritePairs,
          effectWritePairs, writeLenOk]
      · by_cases h7 : mj = 7
        · simp [hex, hmj, h8, h7, isCollabOrWrite, isPerDocCheck, traceWritePairs,
            effectWritePairs, writeLenOk]
        · simp [hex, hmj, h8, h7, isCollabOrWrite, isPerDocCheck, traceWritePairs,
            effectWritePairs, writeLenOk]

/- ------------------------------------------------------------------ -/
/- Concrete fixtures for the closed theorems                          -/
/- ------------------------------------------------------------------ -/

/-- A concrete embedding collaborator. -/
def embTwo : String → EmbVec := fun _ => [1, 0]

/-- A fresh version-8 engine with no indices and no documents. -/
def stFresh8 : ESState := ⟨[], [], "8.0.0", 0⟩

/-- The engine state after ingesting one document with id d1 into the default
index rag_documents: the mapping and the stored vector both use the field
"vector". -/
def stOneDoc : ESState :=
  ⟨[("rag_documents", mappingV8 768)],
   [(("rag_documents", "d1"),
     ⟨"cats purr", [("lang", some (MVal.scalar "en"))], [("vector", [1, 0])]⟩)],
   "8.0.0", 0⟩

/-- A world whose setup succeeds and whose knn attempt succeeds. -/
def wKnnOk : World :=
  ⟨Except.ok (), fun _ => [1, 0], none, Except.ok [⟨"d1", 2, none⟩], fun _ _ => 0,
   Except.ok "a"⟩

/-- A world whose setup succeeds and whose knn attempt raises, forcing the
script_score fallback. -/
def wKnnFails : World :=
  ⟨Except.ok (), fun _ => [1, 0], none, Except.error "knn unsupported", fun _ _ => 0,
   Except.ok "ans"⟩

/-- A world whose candidate filter query raises after a successful setup. -/
def wFilterRaises : World :=
  ⟨Except.ok (), fun _ => [1], some "connection reset by peer", Except.ok [],
   fun _ _ => 0, Except.ok "a"⟩

/-- A filtered query naming the caller index my_index. -/
def qOtherIndex : QueryInput :=
  ⟨"hello", some 3, "my_index", "llama", some [("lang", some (MVal.scalar "en"))]⟩

/-- A filtered query naming the default index. -/
def qFilterEn : QueryInput :=
  ⟨"cats", some 5, "rag_documents", "m", some [("lang", some (MVal.scalar "en"))]⟩

/- ------------------------------------------------------------------ -/
/- Claim theorems                                                     -/
/- ------------------------------------------------------------------ -/

/-- C8: clean_metadata is total, keeps exactly the non-null-valued entries of
its input in order (an absent input behaving as an empty mapping), produces no
null values, and is idempotent. -/
theorem clean_metadata_spec (x : Option MetaMap) :
    clean_metadata x =
      ((match x with | none => [] | some m => m).filter (fun kv => kv.2.isSome))
    ∧ ((clean_metadata x).all (fun kv => kv.2.isSome) = true)
    ∧ clean_metadata (some (clean_metadata x)) = clean_metadata x := by
  have key : ∀ m : MetaMap,
      clean_metadata (some m) = m.filter (fun kv => kv.2.isSome) := by
    intro m
    cases m with
    | nil => rfl
    | cons kv t => simp [clean_metadata]
  rcases x with _ | m
  · exact ⟨rfl, rfl, rfl⟩
  · refine ⟨key m, ?_, ?_⟩
    · rw [key m]
      simp only [List.all_eq_true]
      intro kv hmem
      exact (List.mem_filter.mp hmem).2
    · rw [key m, key (m.filter (fun kv => kv.2.isSome))]
      simp [List.filter_filter]

/-- C1: the claim that filtered-search queries run against the caller's target
index fails on the code.  At a request naming index my_index (with a non-empty
metadata filter), every store search of the request — the candidate filter
query and the ranking (knn) query — targets the configured default index
rag_documents instead, even though the ranking succeeds and a results payload
is returned. -/
theorem C1_search_targets_default_index :
    esSearchTargets (search_rag wKnnOk stOneDoc qOtherIndex).1 = [ES_INDEX, ES_INDEX]
    ∧ qOtherIndex.index = "my_index"
    ∧ ES_INDEX ≠ "my_index"
    ∧ (search_rag wKnnOk stOneDoc qOtherIndex).2 =
        Except.ok (SearchPayload.results "hello" [⟨"d1", 2, none⟩]) := by
  refine ⟨by decide, rfl, by decide, by decide⟩

/-- C2: the claim that the fallback ranks candidates by cosine similarity to
each candidate's stored vector fails on the code.  A document ingested by this
service stores its vector under the field "vector" (as its own knn query and
index mapping do), but the script_score fallback reads the field "embedding":
on the candidate set produced by this very service the fallback query fails
(and the failure propagates) instead of returning a cosine ranking. -/
theorem C2_fallback_reads_missing_field :
    (add_document embTwo stFresh8
        ⟨some "d1", "cats purr", some [("lang", some (MVal.scalar "en"))],
         "rag_documents"⟩).2 = Except.ok (AddResult.okRes, stOneDoc)
    ∧ (lookupDoc stOneDoc ES_INDEX "d1").map StoredDoc.vectors =
        some [("vector", [1, 0])]
    ∧ Effect.esSearchKnn ES_INDEX ⟨"vector", [1, 0], 5, 100, ["d1"]⟩ ∈
        (search_rag wKnnFails stOneDoc qFilterEn).1
    ∧ Effect.esSearchScript ES_INDEX ⟨5, ["d1"], "embedding", [1, 0]⟩ ∈
        (search_rag wKnnFails stOneDoc qFilterEn).1
    ∧ (search_rag wKnnFails stOneDoc qFilterEn).2 =
        Except.error "script_score failed: missing field embedding" := by
  refine ⟨by decide, by decide, by decide, by decide, by decide⟩

/-- C3 counterexample: on a fresh index name against a version-6 engine the
raised failure is the generic index-provisioning wrapper ("Failed to create
index: ..."), with the unsupported-version text only embedded in its message —
not a failure distinguished from the provisioning error as the claim states. -/
theorem C3_unsupported_version_wrapped :
    (create_index_if_not_exists ⟨[], [], "6.8.23", 0⟩ "docs" 768).2 =
      Except.error "Failed to create index: Unsupported Elasticsearch version: 6.8.23"
    ∧ strBegins "Failed to create index: Unsupported Elasticsearch version: 6.8.23"
        "Failed to create index:" = true := by
  refine ⟨by decide, by decide⟩

/-- C3 (amended): for a fresh index name, a major version >= 8 creates a
dense fixed-length vector field with dims = D, major version exactly 7 creates
an hnsw cosine-similarity knn vector field with dimension = D, and any other
major version fails with the provisioning wrapper message embedding the
unsupported-version text (not a distinct error kind); an existing index
returns immediately with no engine write. -/
theorem create_index_version_schemas (st : ESState) (name : String) (dim : Nat) :
    (indexExistsB st name = true →
      create_index_if_not_exists st name dim = ([Effect.indexExistsQ name], Except.ok st))
    ∧ (∀ mj, indexExistsB st name = false → majorOf st.version = some mj → 8 ≤ mj →
        create_index_if_not_exists st name dim =
          ([Effect.indexExistsQ name, Effect.versionProbe,
            Effect.indexCreate name (mappingV8 dim)],
           Except.ok (addIndex st name (mappingV8 dim))))
    ∧ (indexExistsB st name = false → majorOf st.version = some 7 →
        create_index_if_not_exists st name dim =
          ([Effect.indexExistsQ name, Effect.versionProbe,
            Effect.indexCreate name (mappingV7 dim)],
           Except.ok (addIndex st name (mappingV7 dim))))
    ∧ (∀ mj, indexExistsB st name = false → majorOf st.version = some mj → mj < 7 →
        create_index_if_not_exists st name dim =
          ([Effect.indexExistsQ name, Effect.versionProbe],
           Except.error ("Failed to create index: Unsupported Elasticsearch version: "
             ++ st.version))
        ∧ strBegins ("Failed to create index: Unsupported Elasticsearch version: "
             ++ st.version) "Failed to create index:" = true) := by
  refine ⟨?_, ?_, ?_, ?_⟩
  · intro hex
    simp [create_index_if_not_exists, hex]
  · intro mj hex hmj h8
    simp [create_index_if_not_exists, hex, hmj, h8]
  · intro hex hmj
    simp [create_index_if_not_exists, hex, hmj]
  · intro mj hex hmj hlt
    have h8 : ¬ 8 ≤ mj := by omega
    have h7 : ¬ mj = 7 := by omega
    constructor
    · simp [create_index_if_not_exists, hex, hmj, h8, h7]
    · unfold strBegins
      have : ("Failed to create index: Unsupported Elasticsearch version: "
          ++ st.version).data =
          "Failed to create index: Unsupported Elasticsearch version: ".data
          ++ st.version.data := by
        simp [String.data_append]
      rw [this]
      exact charsBegin_append _ _ _ (by decide)

/-- Witness for the amended C3 theorem: concrete version-8, version-7,
unsupported-version and already-exists runs. -/
theorem create_index_version_schemas_witness :
    (create_index_if_not_exists ⟨[], [], "8.11.3", 0⟩ "n" 4 =
       ([Effect.indexExistsQ "n", Effect.versionProbe, Effect.indexCreate "n" (mappingV8 4)],
        Except.ok (addIndex ⟨[], [], "8.11.3", 0⟩ "n" (mappingV8 4))))
    ∧ (create_index_if_not_exists ⟨[], [], "7.10.2", 0⟩ "n" 4 =
       ([Effect.indexExistsQ "n", Effect.versionProbe, Effect.indexCreate "n" (mappingV7 4)],
        Except.ok (addIndex ⟨[], [], "7.10.2", 0⟩ "n" (mappingV7 4))))
    ∧ (create_index_if_not_exists ⟨[], [], "5.6.1", 0⟩ "n" 4 =
       ([Effect.indexExistsQ "n", Effect.versionProbe],
        Except.error "Failed to create index: Unsupported Elasticsearch version: 5.6.1"))
    ∧ (create_index_if_not_exists ⟨[("n", mappingV8 4)], [], "3.0.0", 0⟩ "n" 4 =
       ([Effect.indexExistsQ "n"], Except.ok ⟨[("n", mappingV8 4)], [], "3.0.0", 0⟩)) :=
  ⟨(create_index_version_schemas ⟨[], [], "8.11.3", 0⟩ "n" 4).2.1 8
     (by decide) (by decide) (by decide),
   (create_index_version_schemas ⟨[], [], "7.10.2", 0⟩ "n" 4).2.2.1
     (by decide) (by decide),
   ((create_index_version_schemas ⟨[], [], "5.6.1", 0⟩ "n" 4).2.2.2 5
     (by decide) (by decide) (by decide)).1,
   (create_index_version_schemas ⟨[("n", mappingV8 4)], [], "3.0.0", 0⟩ "n" 4).1
     (by decide)⟩

/-- C9 counterexample: the search endpoint does raise past its own boundary.
With setup succeeding, a failure of the candidate filter query (which the code
does not wrap in any try-block) propagates as an exception instead of being
returned as a msg payload. -/
theorem C9_post_setup_error_propagates :
    (search_rag wFilterRaises stFresh8 qOtherIndex).2 =
      Except.error "connection reset by peer" := by
  decide

/-- C9 (amended): a failure while binding to the store or the language model
during setup is caught and returned as a structured msg payload; however
failures after setup (the candidate filter query, and likewise the uncaught
fallback query or generation call) propagate past the endpoint. -/
theorem search_setup_error_returns_msg (w : World) (st : ESState) (q : QueryInput)
    (e : String) (h : w.setupOutcome = Except.error e) :
    search_rag w st q = ([], Except.ok (SearchPayload.msg e)) := by
  unfold search_rag
  rw [h]

/-- Witness for the amended C9 theorem at a concrete failing setup. -/
theorem search_setup_error_returns_msg_witness :
    search_rag ⟨Except.error "model not found", fun _ => [1], none, Except.ok [],
        fun _ _ => 0, Except.ok "a"⟩ stFresh8 qOtherIndex =
      ([], Except.ok (SearchPayload.msg "model not found")) :=
  search_setup_error_returns_msg _ stFresh8 qOtherIndex "model not found" rfl

/-- C6 counterexample: a bulk call with an empty document list does touch the
store before returning no_docs — the index existence check runs, and on a
fresh index name the index is even created. -/
theorem C6_empty_bulk_touches_store :
    Effect.indexExistsQ "idx" ∈
      (add_documents_bulk embTwo 500 stFresh8 ⟨[], "idx"⟩).1
    ∧ Effect.indexCreate "idx" (mappingV8 768) ∈
        (add_documents_bulk embTwo 500 stFresh8 ⟨[], "idx"⟩).1
    ∧ (add_documents_bulk embTwo 500 stFresh8 ⟨[], "idx"⟩).2 =
        Except.ok (BulkResult.no_docs, addIndex stFresh8 "idx" (mappingV8 768)) := by
  refine ⟨by decide, by decide, by decide⟩

/-- C6 (amended): a bulk call with an empty document list returns no_docs and
performs no document write, no per-document existence check and no collaborator
call, and leaves the stored documents unchanged — but it does first run the
index provisioning step, so an index existence check (and, on a fresh name,
an index creation) is issued against the store. -/
theorem empty_bulk_no_doc_ops (emb : String → EmbVec) (bs : Nat) (st st1 : ESState)
    (idx : String)
    (hcre : (create_index_if_not_exists st idx EMBED_DIM).2 = Except.ok st1) :
    (add_documents_bulk emb bs st ⟨[], idx⟩).2 = Except.ok (BulkResult.no_docs, st1)
    ∧ ((add_documents_bulk emb bs st ⟨[], idx⟩).1.all
        (fun e => !isCollabOrWrite e && !isPerDocCheck e) = true)
    ∧ Effect.indexExistsQ idx ∈ (add_documents_bulk emb bs st ⟨[], idx⟩).1
    ∧ st1.docs = st.docs := by
  have hclean := create_trace_clean st idx EMBED_DIM
  have hfacts := create_ok_facts st idx EMBED_DIM st1 hcre
  have htr : (add_documents_bulk emb bs st ⟨[], idx⟩).1
      = Effect.bindStore idx :: (create_index_if_not_exists st idx EMBED_DIM).1 := by
    simp only [add_documents_bulk, hcre, List.isEmpty_nil, if_true, List.singleton_append]
  have hres : (add_documents_bulk emb bs st ⟨[], idx⟩).2
      = Except.ok (BulkResult.no_docs, st1) := by
    simp only [add_documents_bulk, hcre, List.isEmpty_nil, if_true, List.singleton_append]
  rw [htr, hres]
  refine ⟨rfl, ?_, ?_, hfacts.1⟩
  · rw [List.all_cons, hclean.1]
    rfl
  · exact List.mem_cons_of_mem _ hclean.2.1

/-- Witness for the amended C6 theorem on a fresh version-8 store. -/
theorem empty_bulk_no_doc_ops_witness :
    (add_documents_bulk embTwo 500 stFresh8 ⟨[], "idx"⟩).2 =
      Except.ok (BulkResult.no_docs, addIndex stFresh8 "idx" (mappingV8 768))
    ∧ ((add_documents_bulk embTwo 500 stFresh8 ⟨[], "idx"⟩).1.all
        (fun e => !isCollabOrWrite e && !isPerDocCheck e) = true)
    ∧ Effect.indexExistsQ "idx" ∈ (add_documents_bulk embTwo 500 stFresh8 ⟨[], "idx"⟩).1
    ∧ (addIndex stFresh8 "idx" (mappingV8 768)).docs = stFresh8.docs :=
  empty_bulk_no_doc_ops embTwo 500 stFresh8 (addIndex stFresh8 "idx" (mappingV8 768))
    "idx" (by decide)

/-- A filtered query whose filter matches no stored document of stOneDoc. -/
def qNoMatch : QueryInput :=
  ⟨"anything", none, "rag_documents", "m", some [("lang", some (MVal.scalar "fr"))]⟩

/-- C4: a filtered search whose metadata filter matches zero documents returns
the note payload immediately — the whole request trace is the setup bindings
plus the single candidate filter query, with no embedding-collaborator call,
no generation call and no write. -/
theorem search_filter_short_circuit (w : World) (st : ESState) (q : QueryInput)
    (m : MetaMap)
    (hf : q.filter_metadata = some m) (hne : m.isEmpty = false)
    (hsetup : w.setupOutcome = Except.ok ())
    (hff : w.filterFail = none)
    (hzero : ∀ pr ∈ st.docs, pr.1.1 = ES_INDEX →
        matchesClauses (buildClauses m) pr.2 = false) :
    search_rag w st q =
      ([Effect.bindStore q.index, Effect.bindModel q.model,
        Effect.esSearchFilter ES_INDEX ⟨1000, false, buildClauses m⟩],
       Except.ok (SearchPayload.noteEmpty q.query "no docs after filter"))
    ∧ ((search_rag w st q).1.all (fun e => !isCollabOrWrite e) = true) := by
  have hcand : filterCandidates st ES_INDEX (buildClauses m) = [] := by
    unfold filterCandidates
    have hfil : st.docs.filter
        (fun pr => pr.1.1 == ES_INDEX && matchesClauses (buildClauses m) pr.2) = [] := by
      rw [List.filter_eq_nil_iff]
      intro pr hpr
      by_cases hidx : pr.1.1 = ES_INDEX
      · simp [hidx, hzero pr hpr hidx]
      · simp [hidx]
    rw [hfil]
    rfl
  have hmain : search_rag w st q =
      ([Effect.bindStore q.index, Effect.bindModel q.model,
        Effect.esSearchFilter ES_INDEX ⟨1000, false, buildClauses m⟩],
       Except.ok (SearchPayload.noteEmpty q.query "no docs after filter")) := by
    simp only [search_rag, hsetup, truthyFilter, hf, hne, Bool.false_eq_true, if_false,
      searchFiltered, hff, hcand, List.isEmpty_nil, if_true]
    rfl
  refine ⟨hmain, ?_⟩
  rw [hmain]
  rfl

/-- Witness for the C4 theorem: a one-document store whose document does not
match the filter. -/
theorem search_filter_short_circuit_witness :
    search_rag wKnnOk stOneDoc qNoMatch =
      ([Effect.bindStore "rag_documents", Effect.bindModel "m",
        Effect.esSearchFilter ES_INDEX
          ⟨1000, false, buildClauses [("lang", some (MVal.scalar "fr"))]⟩],
       Except.ok (SearchPayload.noteEmpty "anything" "no docs after filter"))
    ∧ ((search_rag wKnnOk stOneDoc qNoMatch).1.all (fun e => !isCollabOrWrite e) = true) :=
  search_filter_short_circuit wKnnOk stOneDoc qNoMatch
    [("lang", some (MVal.scalar "fr"))] rfl (by decide) rfl rfl (by decide)

theorem searchFiltered_no_qa (w : World) (st : ESState) (q : QueryInput) (k : Nat)
    (bindTr : List Effect) (m : MetaMap)
    (hb : bindTr.all (fun e => !isQaCall e) = true) :
    ((searchFiltered w st q k bindTr m).1.all (fun e => !isQaCall e) = true) := by
  have hb2 : ∀ x ∈ bindTr,
      (match x with | Effect.qaInvoke _ => true | _ => false) = false := by
    rw [List.all_eq_true] at hb
    intro x hx
    simpa [isQaCall] using hb x hx
  unfold searchFiltered
  rcases hwf : w.filterFail with _ | e
  · by_cases hie : (filterCandidates st ES_INDEX (buildClauses m)).isEmpty
    · simp [hie, List.all_append, isQaCall]
      exact hb2
    · rcases hkn : w.knnOutcome with e2 | hits
      · rcases hsc : scriptScoreSearch st ES_INDEX
            (filterCandidates st ES_INDEX (buildClauses m)) "embedding"
            (w.embed q.query) w.cosFn k with e3 | hits2
        · simp [hie, hkn, hsc, List.all_append, isQaCall]
          exact hb2
        · simp [hie, hkn, hsc, List.all_append, isQaCall]
          exact hb2
      · simp [hie, hkn, List.all_append, isQaCall]
        exact hb2
  · simp [hwf, List.all_append, isQaCall]
    exact hb2

theorem searchFiltered_results_shape (w : World) (st : ESState) (q : QueryInput)
    (k : Nat) (bindTr : List Effect) (m : MetaMap) (hits : List RankedHit)
    (hff : w.filterFail = none)
    (hknn : w.knnOutcome = Except.ok hits) :
    (searchFiltered w st q k bindTr m).2 = Except.ok (SearchPayload.results q.query hits)
    ∨ (searchFiltered w st q k bindTr m).2 =
        Except.ok (SearchPayload.noteEmpty q.query "no docs after filter") := by
  unfold searchFiltered
  by_cases hie : (filterCandidates st ES_INDEX (buildClauses m)).isEmpty
  · simp [hff, hie]
  · simp [hff, hie, hknn]

/-- C10: a search whose filter dict is non-empty but all of whose values are
null takes the filtered branch with an empty conjunctive filter — the
candidate query matches every document of the searched index (up to the
1000-candidate cap) — and the response is a results-shaped payload (ranked
results, or the empty-note payload when the index is empty), never a generated
answer, with no generation call in the trace. -/
theorem search_null_filter_matches_all (w : World) (st : ESState) (q : QueryInput)
    (m : MetaMap) (hits : List RankedHit)
    (hf : q.filter_metadata = some m) (hne : m.isEmpty = false)
    (hnull : ∀ kv ∈ m, kv.2 = none)
    (hsetup : w.setupOutcome = Except.ok ())
    (hff : w.filterFail = none)
    (hknn : w.knnOutcome = Except.ok hits) :
    buildClauses m = []
    ∧ filterCandidates st ES_INDEX (buildClauses m) =
        ((st.docs.filter (fun pr => pr.1.1 == ES_INDEX)).map (fun pr => pr.1.2)).take 1000
    ∧ ((search_rag w st q).2 = Except.ok (SearchPayload.results q.query hits)
       ∨ (search_rag w st q).2 =
           Except.ok (SearchPayload.noteEmpty q.query "no docs after filter"))
    ∧ (∀ a, (search_rag w st q).2 ≠ Except.ok (SearchPayload.answer q.query a))
    ∧ ((search_rag w st q).1.all (fun e => !isQaCall e) = true) := by
  have hb : buildClauses m = [] := by
    rw [buildClauses, List.filterMap_eq_nil_iff]
    intro kv hkv
    rw [hnull kv hkv]
  have hcand : filterCandidates st ES_INDEX (buildClauses m) =
      ((st.docs.filter (fun pr => pr.1.1 == ES_INDEX)).map (fun pr => pr.1.2)).take 1000 := by
    rw [hb]
    unfold filterCandidates
    simp [matchesClauses]
  have hmain : search_rag w st q =
      searchFiltered w st q
        (match q.k with | none => 5 | some n => if n = 0 then 5 else n)
        [Effect.bindStore q.index, Effect.bindModel q.model] m := by
    simp only [search_rag, hsetup, truthyFilter, hf, hne, Bool.false_eq_true, if_false]
  have hshape := searchFiltered_results_shape w st q
      (match q.k with | none => 5 | some n => if n = 0 then 5 else n)
      [Effect.bindStore q.index, Effect.bindModel q.model] m hits hff hknn
  refine ⟨hb, hcand, ?_, ?_, ?_⟩
  · rw [hmain]
    exact hshape
  · intro a
    rw [hmain]
    rcases hshape with h | h <;> rw [h] <;> simp
  · rw [hmain]
    exact searchFiltered_no_qa w st q _ _ m rfl

/-- Witness for the C10 theorem: a two-key all-null filter against the
one-document store. -/
theorem search_null_filter_matches_all_witness :
    buildClauses [("lang", (none : Option MVal)), ("tag", none)] = []
    ∧ filterCandidates stOneDoc ES_INDEX
        (buildClauses [("lang", (none : Option MVal)), ("tag", none)]) =
        ((stOneDoc.docs.filter (fun pr => pr.1.1 == ES_INDEX)).map
          (fun pr => pr.1.2)).take 1000
    ∧ ((search_rag wKnnOk stOneDoc
          ⟨"hi", none, "rag_documents", "m", some [("lang", none), ("tag", none)]⟩).2 =
            Except.ok (SearchPayload.results "hi" [⟨"d1", 2, none⟩])
       ∨ (search_rag wKnnOk stOneDoc
          ⟨"hi", none, "rag_documents", "m", some [("lang", none), ("tag", none)]⟩).2 =
            Except.ok (SearchPayload.noteEmpty "hi" "no docs after filter"))
    ∧ (∀ a, (search_rag wKnnOk stOneDoc
          ⟨"hi", none, "rag_documents", "m", some [("lang", none), ("tag", none)]⟩).2 ≠
            Except.ok (SearchPayload.answer "hi" a))
    ∧ ((search_rag wKnnOk stOneDoc
          ⟨"hi", none, "rag_documents", "m", some [("lang", none), ("tag", none)]⟩).1.all
          (fun e => !isQaCall e) = true) :=
  search_null_filter_matches_all wKnnOk stOneDoc
    ⟨"hi", none, "rag_documents", "m", some [("lang", none), ("tag", none)]⟩
    [("lang", none), ("tag", none)] [⟨"d1", 2, none⟩]
    rfl (by decide) (by decide) rfl rfl rfl

/-- C7: ingesting the same caller-supplied id twice returns ok then skipped;
the second call performs no embedding call and no store write, and the store
holds exactly one document under that id, namely the cleaned first submission
with its vector stored under the field "vector". -/
theorem add_document_idempotent (emb : String → EmbVec) (st st1 : ESState)
    (idx s pc : String) (meta : Option MetaMap)
    (hs : s.isEmpty = false)
    (hcre : (create_index_if_not_exists st idx EMBED_DIM).2 = Except.ok st1)
    (habs : docExistsB st idx s = false) :
    ∃ st2,
      (add_document emb st ⟨some s, pc, meta, idx⟩).2 = Except.ok (AddResult.okRes, st2)
      ∧ (add_document emb st2 ⟨some s, pc, meta, idx⟩).2 =
          Except.ok (AddResult.skippedRes, st2)
      ∧ ((add_document emb st2 ⟨some s, pc, meta, idx⟩).1.all
          (fun e => !isCollabOrWrite e) = true)
      ∧ st2.docs.countP (fun pr => pr.1.1 == idx && pr.1.2 == s) = 1
      ∧ lookupDoc st2 idx s = some (toStored emb (toLCDoc pc meta)) := by
  obtain ⟨hdocs, hctr, hex1⟩ := create_ok_facts st idx EMBED_DIM st1 hcre
  refine ⟨putDoc st1 idx s (toStored emb (toLCDoc pc meta)), ?_, ?_, ?_, ?_, ?_⟩
  · have habs1 : docExistsB st1 idx s = false := by
      unfold docExistsB
      rw [lookupDoc_docs_eq st1 st idx s hdocs]
      exact habs
    simp only [add_document, hcre, normId, hs, Bool.false_eq_true, if_false, habs1,
      addDocumentsToStore, writePairs, storePairs, List.zip, List.zipWith]
  · have hex2 : indexExistsB (putDoc st1 idx s (toStored emb (toLCDoc pc meta))) idx
        = true := by
      simpa [putDoc, indexExistsB] using hex1
    have hcre2 : create_index_if_not_exists
        (putDoc st1 idx s (toStored emb (toLCDoc pc meta))) idx EMBED_DIM =
        ([Effect.indexExistsQ idx],
         Except.ok (putDoc st1 idx s (toStored emb (toLCDoc pc meta)))) := by
      simp [create_index_if_not_exists, hex2]
    have hdex2 : docExistsB (putDoc st1 idx s (toStored emb (toLCDoc pc meta))) idx s
        = true := by
      simp [docExistsB, lookupDoc_putDoc_self]
    simp only [add_document, hcre2, normId, hs, Bool.false_eq_true, if_false, hdex2,
      if_true]
  · have hex2 : indexExistsB (putDoc st1 idx s (toStored emb (toLCDoc pc meta))) idx
        = true := by
      simpa [putDoc, indexExistsB] using hex1
    have hcre2 : create_index_if_not_exists
        (putDoc st1 idx s (toStored emb (toLCDoc pc meta))) idx EMBED_DIM =
        ([Effect.indexExistsQ idx],
         Except.ok (putDoc st1 idx s (toStored emb (toLCDoc pc meta)))) := by
      simp [create_index_if_not_exists, hex2]
    have hdex2 : docExistsB (putDoc st1 idx s (toStored emb (toLCDoc pc meta))) idx s
        = true := by
      simp [docExistsB, lookupDoc_putDoc_self]
    simp only [add_document, hcre2, normId, hs, Bool.false_eq_true, if_false, hdex2,
      if_true]
    rfl
  · simp only [putDoc, List.countP_cons]
    rw [countP_filter_not (fun pr => pr.1.1 == idx && pr.1.2 == s) st1.docs]
    simp
  · exact lookupDoc_putDoc_self st1 idx s (toStored emb (toLCDoc pc meta))

/-- Witness for the C7 theorem on a fresh version-8 store. -/
theorem add_document_idempotent_witness :
    ∃ st2,
      (add_document embTwo stFresh8 ⟨some "d1", "hello", none, "i"⟩).2 =
        Except.ok (AddResult.okRes, st2)
      ∧ (add_document embTwo st2 ⟨some "d1", "hello", none, "i"⟩).2 =
          Except.ok (AddResult.skippedRes, st2)
      ∧ ((add_document embTwo st2 ⟨some "d1", "hello", none, "i"⟩).1.all
          (fun e => !isCollabOrWrite e) = true)
      ∧ st2.docs.countP (fun pr => pr.1.1 == "i" && pr.1.2 == "d1") = 1
      ∧ lookupDoc st2 "i" "d1" = some (toStored embTwo (toLCDoc "hello" none)) :=
  add_document_idempotent embTwo stFresh8 (addIndex stFresh8 "i" (mappingV8 768))
    "i" "d1" "hello" none (by decide) (by decide) (by decide)

theorem zip_none_eq_map (ds : List LCDoc) (l : List (Option String))
    (hlen : ds.length = l.length) (hnone : l.any Option.isSome = false) :
    ds.zip l = ds.map (fun d => (d, (none : Option String))) := by
  induction ds generalizing l with
  | nil => simp
  | cons d ds ih =>
      cases l with
      | nil => simp at hlen
      | cons o l =>
          rcases o with _ | v
          · simp only [List.zip_cons_cons, List.map_cons]
            have h1 : l.any Option.isSome = false := by simpa using hnone
            rw [ih l (by simpa using hlen) h1]
          · simp [List.any_cons] at hnone

theorem flushWrite_pairs (emb : String → EmbVec) (index : String) (batch : List LCDoc)
    (idsB : List (Option String)) (st : ESState) (hlen : batch.length = idsB.length) :
    traceWritePairs (flushWrite emb index batch idsB st).1 = batch.zip idsB := by
  unfold flushWrite
  by_cases h : idsB.any Option.isSome
  · simp [h, traceWritePairs, effectWritePairs, writePairs]
  · have hz := zip_none_eq_map batch idsB hlen (by simpa using h)
    simp [h, traceWritePairs, effectWritePairs, writePairs, hz]

theorem flushWrite_lenOk (emb : String → EmbVec) (index : String) (batch : List LCDoc)
    (idsB : List (Option String)) (st : ESState) (hlen : batch.length = idsB.length) :
    (flushWrite emb index batch idsB st).1.all writeLenOk = true := by
  unfold flushWrite
  by_cases h : idsB.any Option.isSome
  · simp [h, writeLenOk, hlen]
  · simp [h, writeLenOk]

theorem bulkLoop_spec (emb : String → EmbVec) (bs : Nat) (index : String)
    (docs : List DocumentInput) :
    ∀ st batch idsB added, batch.length = idsB.length →
      (∃ S, traceWritePairs (bulkLoop emb bs index docs st batch idsB added).1 =
              batch.zip idsB ++ S
            ∧ List.Sublist S (docs.map inputPair))
      ∧ ((bulkLoop emb bs index docs st batch idsB added).1.all writeLenOk = true)
      ∧ (bulkLoop emb bs index docs st batch idsB added).2.2 =
          added + (traceWritePairs (bulkLoop emb bs index docs st batch idsB added).1).length := by
  induction docs with
  | nil =>
      intro st batch idsB added hlen
      by_cases hb : batch.isEmpty
      · have hbe : batch = [] := by
          cases batch
          · rfl
          · simp at hb
        subst hbe
        have hie : idsB = [] := by
          cases idsB
          · rfl
          · simp at hlen
        subst hie
        simp only [bulkLoop, List.isEmpty_nil, if_true]
        exact ⟨⟨[], by simp [traceWritePairs], List.Sublist.refl _⟩, rfl, by
          simp [traceWritePairs]⟩
      · simp only [bulkLoop, hb, Bool.false_eq_true, if_false]
        have hP := flushWrite_pairs emb index batch idsB st hlen
        refine ⟨⟨[], by rw [hP]; simp, by simp⟩, flushWrite_lenOk emb index batch idsB st hlen, ?_⟩
        rw [hP, List.length_zip, hlen, Nat.min_self, ← hlen]
  | cons d rest ih =>
      intro st batch idsB added hlen
      rcases hni : normId d.doc_id with _ | id
      · -- falsy id: no existence check
        have hpair : inputPair d = (toLCDoc d.page_content d.metadata, none) := by
          simp [inputPair, hni]
        by_cases hflush : bs ≤ (batch ++ [toLCDoc d.page_content d.metadata]).length
        · -- flush after append
          simp only [bulkLoop, hni, hflush, if_true]
          have hlen2 : (batch ++ [toLCDoc d.page_content d.metadata]).length =
              (idsB ++ [(none : Option String)]).length := by
            simp [hlen]
          obtain ⟨⟨S, hS, hSub⟩, hOk, hAdd⟩ :=
            ih (flushWrite emb index (batch ++ [toLCDoc d.page_content d.metadata])
                (idsB ++ [none]) st).2 [] []
              (added + (batch ++ [toLCDoc d.page_content d.metadata]).length) rfl
          have hPairs : traceWritePairs
              ((flushWrite emb index (batch ++ [toLCDoc d.page_content d.metadata])
                  (idsB ++ [none]) st).1 ++
                (bulkLoop emb bs index rest
                  (flushWrite emb index (batch ++ [toLCDoc d.page_content d.metadata])
                    (idsB ++ [none]) st).2 [] []
                  (added + (batch ++ [toLCDoc d.page_content d.metadata]).length)).1) =
              batch.zip idsB ++ ((toLCDoc d.page_content d.metadata, none) :: S) := by
            rw [traceWritePairs_append, flushWrite_pairs emb index _ _ st hlen2, hS,
              List.zip_append hlen]
            simp
          refine ⟨⟨(toLCDoc d.page_content d.metadata, none) :: S, hPairs, ?_⟩, ?_, ?_⟩
          · rw [List.map_cons, hpair]
            exact List.Sublist.cons₂ _ hSub
          · rw [List.all_append, flushWrite_lenOk emb index _ _ st hlen2, hOk]
            rfl
          · rw [hPairs, hAdd, hS]
            simp only [List.length_append, List.length_zip, List.length_cons,
              List.length_nil, hlen, Nat.min_self]
            omega
        · -- append without flush
          simp only [bulkLoop, hni, hflush, if_false]
          have hlen2 : (batch ++ [toLCDoc d.page_content d.metadata]).length =
              (idsB ++ [(none : Option String)]).length := by
            simp [hlen]
          obtain ⟨⟨S, hS, hSub⟩, hOk, hAdd⟩ :=
            ih st (batch ++ [toLCDoc d.page_content d.metadata]) (idsB ++ [none])
              added hlen2
          have hPairs : traceWritePairs
              (bulkLoop emb bs index rest st
                (batch ++ [toLCDoc d.page_content d.metadata]) (idsB ++ [none]) added).1 =
              batch.zip idsB ++ ((toLCDoc d.page_content d.metadata, none) :: S) := by
            rw [hS, List.zip_append hlen]
            simp
          refine ⟨⟨(toLCDoc d.page_content d.metadata, none) :: S, hPairs, ?_⟩, hOk, ?_⟩
          · rw [List.map_cons, hpair]
            exact List.Sublist.cons₂ _ hSub
          · exact hAdd
      · -- truthy id: existence check first
        have hpair : inputPair d = (toLCDoc d.page_content d.metadata, some id) := by
          simp [inputPair, hni]
        by_cases hex : docExistsB st index id = true
        · -- skipped
          simp only [bulkLoop, hni, hex, if_true]
          obtain ⟨⟨S, hS, hSub⟩, hOk, hAdd⟩ := ih st batch idsB added hlen
          have hPairs : traceWritePairs
              (Effect.docExistsQ index id ::
                (bulkLoop emb bs index rest st batch idsB added).1) =
              batch.zip idsB ++ S := by
            rw [traceWritePairs_cons]
            simpa [effectWritePairs] using hS
          refine ⟨⟨S, hPairs, List.Sublist.cons _ hSub⟩, ?_, ?_⟩
          · rw [List.all_cons, hOk]
            rfl
          · rw [hPairs, hAdd, hS]
        · have hex2 : docExistsB st index id = false := by
            simpa using hex
          by_cases hflush : bs ≤ (batch ++ [toLCDoc d.page_content d.metadata]).length
          · -- flush after append
            simp only [bulkLoop, hni, hex2, Bool.false_eq_true, if_false, hflush, if_true]
            have hlen2 : (batch ++ [toLCDoc d.page_content d.metadata]).length =
                (idsB ++ [some id]).length := by
              simp [hlen]
            obtain ⟨⟨S, hS, hSub⟩, hOk, hAdd⟩ :=
              ih (flushWrite emb index (batch ++ [toLCDoc d.page_content d.metadata])
                  (idsB ++ [some id]) st).2 [] []
                (added + (batch ++ [toLCDoc d.page_content d.metadata]).length) rfl
            have hPairs : traceWritePairs
                ((Effect.docExistsQ index id ::
                    (flushWrite emb index (batch ++ [toLCDoc d.page_content d.metadata])
                      (idsB ++ [some id]) st).1) ++
                  (bulkLoop emb bs index rest
                    (flushWrite emb index (batch ++ [toLCDoc d.page_content d.metadata])
                      (idsB ++ [some id]) st).2 [] []
                    (added + (batch ++ [toLCDoc d.page_content d.metadata]).length)).1) =
                batch.zip idsB ++ ((toLCDoc d.page_content d.metadata, some id) :: S) := by
              rw [traceWritePairs_append, traceWritePairs_cons]
              simp only [effectWritePairs, List.nil_append]
              rw [flushWrite_pairs emb index _ _ st hlen2, hS, List.zip_append hlen]
              simp
            refine ⟨⟨(toLCDoc d.page_content d.metadata, some id) :: S, hPairs, ?_⟩, ?_, ?_⟩
            · rw [List.map_cons, hpair]
              exact List.Sublist.cons₂ _ hSub
            · rw [List.all_append, List.all_cons, flushWrite_lenOk emb index _ _ st hlen2, hOk]
              rfl
            · rw [hPairs, hAdd, hS]
              simp only [List.length_append, List.length_zip, List.length_cons,
                List.length_nil, hlen, Nat.min_self]
              omega
          · -- append without flush
            simp only [bulkLoop, hni, hex2, Bool.false_eq_true, if_false, hflush]
            have hlen2 : (batch ++ [toLCDoc d.page_content d.metadata]).length =
                (idsB ++ [some id]).length := by
              simp [hlen]
            obtain ⟨⟨S, hS, hSub⟩, hOk, hAdd⟩ :=
              ih st (batch ++ [toLCDoc d.page_content d.metadata]) (idsB ++ [some id])
                added hlen2
            have hPairs : traceWritePairs
                (Effect.docExistsQ index id ::
                  (bulkLoop emb bs index rest st
                    (batch ++ [toLCDoc d.page_content d.metadata])
                    (idsB ++ [some id]) added).1) =
                batch.zip idsB ++ ((toLCDoc d.page_content d.metadata, some id) :: S) := by
              rw [traceWritePairs_cons]
              simp only [effectWritePairs, List.nil_append]
              rw [hS, List.zip_append hlen]
              simp
            refine ⟨⟨(toLCDoc d.page_content d.metadata, some id) :: S, hPairs, ?_⟩, ?_, ?_⟩
            · rw [List.map_cons, hpair]
              exact List.Sublist.cons₂ _ hSub
            · rw [List.all_cons, hOk]
              rfl
            · rw [hPairs, hAdd, hS]
              simp only [List.length_append, List.length_zip, List.length_cons,
                List.length_nil, hlen, Nat.min_self]
              omega

/-- C5: in every bulk ingestion call, ids and documents travel together: each
store write carries an id list of exactly its batch's length, the concatenated
(document, id) pairs of all writes form an order-preserving subsequence of the
submitted documents each paired with its own id, and the returned added count
equals the number of written pairs. -/
theorem bulk_id_alignment (emb : String → EmbVec) (bs : Nat) (st : ESState)
    (p : BulkDocumentInput) :
    List.Sublist (traceWritePairs (add_documents_bulk emb bs st p).1)
      (p.documents.map inputPair)
    ∧ ((add_documents_bulk emb bs st p).1.all writeLenOk = true)
    ∧ (addedOf (add_documents_bulk emb bs st p).2 = none
       ∨ addedOf (add_documents_bulk emb bs st p).2 =
           some (traceWritePairs (add_documents_bulk emb bs st p).1).length) := by
  have hct := create_trace_clean st p.index EMBED_DIM
  rcases hc : (create_index_if_not_exists st p.index EMBED_DIM).2 with e | st1
  · have h1 : add_documents_bulk emb bs st p =
        (Effect.bindStore p.index :: (create_index_if_not_exists st p.index EMBED_DIM).1,
         Except.error e) := by
      simp only [add_documents_bulk, hc, List.singleton_append]
    rw [h1]
    refine ⟨?_, ?_, Or.inl rfl⟩
    · rw [traceWritePairs_cons]
      simp only [effectWritePairs, List.nil_append]
      rw [hct.2.2.1]
      exact List.nil_sublist _
    · rw [List.all_cons, hct.2.2.2]
      rfl
  · by_cases hemp : p.documents.isEmpty
    · have h1 : add_documents_bulk emb bs st p =
          (Effect.bindStore p.index :: (create_index_if_not_exists st p.index EMBED_DIM).1,
           Except.ok (BulkResult.no_docs, st1)) := by
        simp only [add_documents_bulk, hc, hemp, if_true, List.singleton_append]
      rw [h1]
      refine ⟨?_, ?_, Or.inl rfl⟩
      · rw [traceWritePairs_cons]
        simp only [effectWritePairs, List.nil_append]
        rw [hct.2.2.1]
        exact List.nil_sublist _
      · rw [List.all_cons, hct.2.2.2]
        rfl
    · have h1 : add_documents_bulk emb bs st p =
          ((Effect.bindStore p.index ::
              (create_index_if_not_exists st p.index EMBED_DIM).1) ++
             (bulkLoop emb bs p.index p.documents st1 [] [] 0).1,
           Except.ok (BulkResult.okAdded
               (bulkLoop emb bs p.index p.documents st1 [] [] 0).2.2,
             (bulkLoop emb bs p.index p.documents st1 [] [] 0).2.1)) := by
        simp only [add_documents_bulk, hc, hemp, Bool.false_eq_true, if_false,
          List.singleton_append, List.cons_append, List.nil_append]
      obtain ⟨⟨S, hS, hSub⟩, hOk, hAdd⟩ :=
        bulkLoop_spec emb bs p.index p.documents st1 [] [] 0 rfl
      rw [h1]
      refine ⟨?_, ?_, Or.inr ?_⟩
      · rw [traceWritePairs_append, traceWritePairs_cons]
        simp only [effectWritePairs, List.nil_append]
        rw [hct.2.2.1, List.nil_append, hS]
        simpa using hSub
      · rw [List.all_append, List.all_cons, hct.2.2.2, hOk]
        rfl
      · simp only [addedOf]
        rw [traceWritePairs_append, traceWritePairs_cons]
        simp only [effectWritePairs, List.nil_append]
        rw [hct.2.2.1, List.nil_append, hAdd]
        simp

/-- Witness for the C5 theorem: batch size 2 over four documents (one already
present and skipped, one with no id), forcing a mid-loop flush plus a trailing
flush. -/
theorem bulk_id_alignment_witness :
    List.Sublist
      (traceWritePairs (add_documents_bulk embTwo 2 stOneDoc
        ⟨[⟨some "a", "A", none⟩, ⟨some "d1", "B", none⟩, ⟨none, "C", none⟩,
          ⟨some "d", "D", none⟩], "rag_documents"⟩).1)
      ([⟨some "a", "A", none⟩, ⟨some "d1", "B", none⟩, ⟨none, "C", none⟩,
        ⟨some "d", "D", none⟩].map inputPair)
    ∧ ((add_documents_bulk embTwo 2 stOneDoc
        ⟨[⟨some "a", "A", none⟩, ⟨some "d1", "B", none⟩, ⟨none, "C", none⟩,
          ⟨some "d", "D", none⟩], "rag_documents"⟩).1.all writeLenOk = true)
    ∧ (addedOf (add_documents_bulk embTwo 2 stOneDoc
        ⟨[⟨some "a", "A", none⟩, ⟨some "d1", "B", none⟩, ⟨none, "C", none⟩,
          ⟨some "d", "D", none⟩], "rag_documents"⟩).2 = none
       ∨ addedOf (add_documents_bulk embTwo 2 stOneDoc
        ⟨[⟨some "a", "A", none⟩, ⟨some "d1", "B", none⟩, ⟨none, "C", none⟩,
          ⟨some "d", "D", none⟩], "rag_documents"⟩).2 =
           some (traceWritePairs (add_documents_bulk embTwo 2 stOneDoc
        ⟨[⟨some "a", "A", none⟩, ⟨some "d1", "B", none⟩, ⟨none, "C", none⟩,
          ⟨some "d", "D", none⟩], "rag_documents"⟩).1).length) :=
  bulk_id_alignment embTwo 2 stOneDoc
    ⟨[⟨some "a", "A", none⟩, ⟨some "d1", "B", none⟩, ⟨none, "C", none⟩,
      ⟨some "d", "D", none⟩], "rag_documents"⟩
